import Mathlib

/-!
Verification of the Normalization, Caching & Error-Taxonomy Facade
(kaggle-mcp-server). The definitions below are a shallow embedding of
`src/kaggle_mcp_server/server.py` and `src/kaggle_mcp_server/utils.py`:
Python values are modelled by the inductive `PyVal`, the facade
operations by pure functions from the platform client outcome (an
`Except`) to the returned response dictionary, and the in-memory cache
by a pair of association lists mirroring the two Python dicts.
-/

set_option maxHeartbeats 1000000

/- Model of a Python runtime value as far as the facade inspects it.
An upstream platform object (anything that is not `None`, a primitive,
a list/tuple or a dict) is `objV iso name value rep` where `iso` is the
result of `.isoformat()` when that attribute exists, `name`/`value` are
the homonymous attributes when they exist, and `rep` is `str(obj)`. -/
mutual
inductive PyVal : Type where
| noneV : PyVal
| boolV : Bool → PyVal
| intV : Int → PyVal
| floatV : String → PyVal
| strV : String → PyVal
| listV : PyList → PyVal
| tupleV : PyList → PyVal
| dictV : PyDict → PyVal
| objV : Option String → PyOpt → PyOpt → String → PyVal
inductive PyList : Type where
| nil : PyList
| cons : PyVal → PyList → PyList
inductive PyDict : Type where
| dnil : PyDict
| dcons : PyVal → PyVal → PyDict → PyDict
inductive PyOpt : Type where
| onone : PyOpt
| osome : PyVal → PyOpt
end

/- `safe_serialize` from server.py: dispatch order is None, primitive,
list/tuple, dict (keys kept untouched, values serialized), `.isoformat()`,
`.name` (returned raw, not recursively serialized), `.value` (serialized
recursively), fallback `str(obj)`. -/
mutual
def safe_serialize : PyVal → PyVal
| .noneV => .noneV
| .boolV b => .boolV b
| .intV n => .intV n
| .floatV f => .floatV f
| .strV s => .strV s
| .listV xs => .listV (ssList xs)
| .tupleV xs => .listV (ssList xs)
| .dictV kvs => .dictV (ssDict kvs)
| .objV (some iso) _ _ _ => .strV iso
| .objV none (.osome nm) _ _ => nm
| .objV none .onone (.osome v) _ => safe_serialize v
| .objV none .onone .onone rep => .strV rep
def ssList : PyList → PyList
| .nil => .nil
| .cons x t => .cons (safe_serialize x) (ssList t)
def ssDict : PyDict → PyDict
| .dnil => .dnil
| .dcons k v t => .dcons k (safe_serialize v) (ssDict t)
end

/- `goodNames v`: every platform object inside `v` (in list/tuple
elements, dict values, or a `value` attribute) has a `name` attribute
that is absent or a string. -/
mutual
def goodNames : PyVal → Bool
| .listV xs => goodNamesList xs
| .tupleV xs => goodNamesList xs
| .dictV kvs => goodNamesDict kvs
| .objV _ nm val _ =>
    (match nm with
     | .onone => true
     | .osome (.strV _) => true
     | .osome _ => false)
    && (match val with
        | .onone => true
        | .osome w => goodNames w)
| _ => true
def goodNamesList : PyList → Bool
| .nil => true
| .cons x t => goodNames x && goodNamesList t
def goodNamesDict : PyDict → Bool
| .dnil => true
| .dcons _ v t => goodNames v && goodNamesDict t
end

/- `noPlatform v`: `v` contains no platform object (`objV`) anywhere —
the invariant the spec asks of a `NormalizedValue`. -/
mutual
def noPlatform : PyVal → Bool
| .objV _ _ _ _ => false
| .listV xs => noPlatformList xs
| .tupleV xs => noPlatformList xs
| .dictV kvs => noPlatformDict kvs
| _ => true
def noPlatformList : PyList → Bool
| .nil => true
| .cons x t => noPlatform x && noPlatformList t
def noPlatformDict : PyDict → Bool
| .dnil => true
| .dcons k v t => noPlatform k && noPlatform v && noPlatformDict t
end

/- `keysClean v`: every dict key inside `v` is free of platform
objects (dict keys are never serialized by `safe_serialize`). -/
mutual
def keysClean : PyVal → Bool
| .listV xs => keysCleanList xs
| .tupleV xs => keysCleanList xs
| .dictV kvs => keysCleanDict kvs
| .objV _ _ val _ =>
    (match val with
     | .onone => true
     | .osome w => keysClean w)
| _ => true
def keysCleanList : PyList → Bool
| .nil => true
| .cons x t => keysClean x && keysCleanList t
def keysCleanDict : PyDict → Bool
| .dnil => true
| .dcons k v t => noPlatform k && keysClean v && keysCleanDict t
end

/-- `needle` occurs as a contiguous run inside `hay` (Python `in`). -/
def listIsPrefixC : List Char → List Char → Bool
| [], _ => true
| _ :: _, [] => false
| a :: as, b :: bs => a = b && listIsPrefixC as bs

/-- Helper for `strContains`: scan over all suffixes of the haystack. -/
def listHasInfix (needle : List Char) : List Char → Bool
| [] => needle.isEmpty
| b :: bs => listIsPrefixC needle (b :: bs) || listHasInfix needle bs

/-- Python `needle in hay` on strings. -/
def strContains (hay needle : String) : Bool :=
  listHasInfix needle.data hay.data

/-- ASCII lower-casing of one character (Python `str.lower()` restricted
to ASCII, which covers every classifier rule). -/
def lowerChar (c : Char) : Char :=
  if 'A' ≤ c ∧ c ≤ 'Z' then Char.ofNat (c.toNat + 32) else c

/-- Recursive worker for `pyLower`. -/
def lowerChars : List Char → List Char
| [] => []
| c :: t => lowerChar c :: lowerChars t

/-- Python `str.lower()`. -/
def pyLower (s : String) : String :=
  String.mk (lowerChars s.data)

/-- Worker for `pySplitSlash`: accumulate the current piece (reversed)
and cut at each separator. -/
def splitCharsAux (sep : Char) : List Char → List Char → List (List Char)
| [], acc => [acc.reverse]
| c :: t, acc =>
  if c = sep then acc.reverse :: splitCharsAux sep t []
  else splitCharsAux sep t (c :: acc)

/-- Python `s.split("/")`. -/
def pySplitSlash (s : String) : List String :=
  (splitCharsAux '/' s.data []).map String.mk

/-- Python `str(v)` for the scalar values the facade interpolates into
url strings; container rendering is abbreviated (the facade only ever
interpolates scalar `ref` fields). -/
def pyStr : PyVal → String
| .noneV => "None"
| .boolV true => "True"
| .boolV false => "False"
| .intV n => toString n
| .floatV f => f
| .strV s => s
| .objV _ _ _ rep => rep
| .listV _ => "[...]"
| .tupleV _ => "(...)"
| .dictV _ => "\x7b...\x7d"

/-- The error taxonomy produced by the classifier in
`handle_kaggle_errors` (utils.py). -/
inductive ErrorKind : Type where
| authentication
| permission
| not_found
| rate_limit
| timeout
| unknown
deriving DecidableEq, Repr

/-- The `error_type` tag each kind carries in the error dictionary. -/
def errorTypeTag : ErrorKind → String
| .authentication => "authentication_error"
| .permission => "permission_error"
| .not_found => "not_found_error"
| .rate_limit => "rate_limit_error"
| .timeout => "timeout_error"
| .unknown => "unknown_error"

/-- The classification cascade of `handle_kaggle_errors` (utils.py,
lines 26-55), embedded as a function from the failure text to the
(kind, user message) pair of the branch taken. -/
def classifyError (error_msg : String) : ErrorKind × String :=
  if strContains error_msg "401" || strContains error_msg "Unauthorized" then
    (.authentication, "Authentication failed. Please check your Kaggle API credentials.")
  else if strContains error_msg "403" || strContains error_msg "Forbidden" then
    (.permission, "Access denied. You may not have permission to access this resource.")
  else if strContains error_msg "404" || strContains error_msg "Not Found" then
    (.not_found, "Resource not found. Please check the competition/dataset ID.")
  else if strContains error_msg "429" || strContains (pyLower error_msg) "rate limit" then
    (.rate_limit, "Rate limit exceeded. Please wait before making more requests.")
  else if strContains (pyLower error_msg) "timeout" then
    (.timeout, "Request timed out. Please try again later.")
  else
    (.unknown, "An unexpected error occurred: " ++ error_msg)

/-- Modelled from the spec (section 4.3): the classifier as a
priority-ordered rule table, first match wins, `unknown` when no rule
matches. Used only to compare against `classifyError`. -/
def specRules : List ((String → Bool) × ErrorKind) :=
  [(fun e => strContains e "401" || strContains e "Unauthorized", .authentication),
   (fun e => strContains e "403" || strContains e "Forbidden", .permission),
   (fun e => strContains e "404" || strContains e "Not Found", .not_found),
   (fun e => strContains e "429" || strContains (pyLower e) "rate limit", .rate_limit),
   (fun e => strContains (pyLower e) "timeout", .timeout)]

/-- Modelled from the spec: the kind of the first matching rule. -/
def specClassifyKind (e : String) : ErrorKind :=
  match specRules.find? (fun r => r.1 e) with
  | some r => r.2
  | none => .unknown

/-- The per-kind message template the code attaches (the string
literals of the `handle_kaggle_errors` cascade, utils.py lines 26-55);
only `unknown` interpolates the raw upstream text. -/
def codeKindMessage : ErrorKind → String → String
| .authentication, _ => "Authentication failed. Please check your Kaggle API credentials."
| .permission, _ => "Access denied. You may not have permission to access this resource."
| .not_found, _ => "Resource not found. Please check the competition/dataset ID."
| .rate_limit, _ => "Rate limit exceeded. Please wait before making more requests."
| .timeout, _ => "Request timed out. Please try again later."
| .unknown, e => "An unexpected error occurred: " ++ e

/-- Modelled from the spec: the message column of the section 4.3 rule
table, word for word ("API credentials", "the identifier"); only
`unknown` interpolates the raw upstream text. Used only to compare
against the code's messages. -/
def specKindMessage : ErrorKind → String → String
| .authentication, _ => "Authentication failed. Please check your API credentials."
| .permission, _ => "Access denied. You may not have permission to access this resource."
| .not_found, _ => "Resource not found. Please check the identifier."
| .rate_limit, _ => "Rate limit exceeded. Please wait before making more requests."
| .timeout, _ => "Request timed out. Please try again later."
| .unknown, e => "An unexpected error occurred: " ++ e

/-- `validate_dataset_ref` (utils.py): checks emptiness, presence of the
separator, exactly one separator, and non-empty sides; returns a flag
and an optional error message (the parts are not returned). -/
def validate_dataset_ref (dataset_ref : String) : Bool × Option String :=
  if dataset_ref = "" then
    (false, some "Dataset reference cannot be empty")
  else if strContains dataset_ref "/" = false then
    (false, some "Dataset reference must be in format username/dataset-name")
  else
    let parts := pySplitSlash dataset_ref
    if parts.length ≠ 2 then
      (false, some "Dataset reference must contain exactly one / separator")
    else
      let username := parts.getD 0 ""
      let dataset_name := parts.getD 1 ""
      if username = "" ∨ dataset_name = "" then
        (false, some "Both username and dataset name must be non-empty")
      else
        (true, none)

/-- `validate_pagination_params` (utils.py); the source gives
`max_page_size` the default 100, passed explicitly here. -/
def validate_pagination_params (page page_size max_page_size : Int) :
    Bool × Option String :=
  if page < 1 then
    (false, some "Page number must be 1 or greater")
  else if page_size < 1 then
    (false, some "Page size must be 1 or greater")
  else if page_size > max_page_size then
    (false, some ("Page size cannot exceed " ++ toString max_page_size))
  else
    (true, none)

/-- Python-dict lookup on an association list (first binding wins). -/
def alookup {α : Type} (k : String) : List (String × α) → Option α
| [] => none
| (k₂, v) :: t => if k = k₂ then some v else alookup k t

/-- Python-dict store: overwrite in place when the key is present,
append otherwise. -/
def ainsert {α : Type} (k : String) (v : α) : List (String × α) → List (String × α)
| [] => [(k, v)]
| (k₂, v₂) :: t => if k = k₂ then (k, v) :: t else (k₂, v₂) :: ainsert k v t

/-- Python `del d[k]`: remove the binding of `k`. -/
def aerase {α : Type} (k : String) : List (String × α) → List (String × α)
| [] => []
| (k₂, v₂) :: t => if k = k₂ then t else (k₂, v₂) :: aerase k t

/- `KaggleAPICache` (utils.py): two dicts, `_cache` for values and
`_timestamps` for the time each key was stored. Time is an abstract
integer number of seconds, passed in explicitly where the Python reads
`datetime.now()`. -/
structure KaggleAPICache (V : Type) : Type where
  _cache : List (String × V)
  _timestamps : List (String × Int)

/-- A freshly constructed cache: both dicts empty. -/
def KaggleAPICache.empty {V : Type} : KaggleAPICache V := ⟨[], []⟩

/-- `KaggleAPICache.get`: absent key gives `none`; a key whose age
`now - storedAt` exceeds `ttl` is deleted from both dicts (lazy
eviction) and gives `none`; otherwise the stored value is returned.
The mutated cache is returned alongside the result. -/
def KaggleAPICache.get {V : Type} (c : KaggleAPICache V) (key : String)
    (ttl : Int) (now : Int) : Option V × KaggleAPICache V :=
  match alookup key c._cache with
  | none => (none, c)
  | some v =>
    match alookup key c._timestamps with
    | some stored =>
      if now - stored > ttl then
        (none, ⟨aerase key c._cache, aerase key c._timestamps⟩)
      else
        (some v, c)
    | none => (some v, c)

/-- `KaggleAPICache.set`: unconditionally store the value with the
current timestamp. -/
def KaggleAPICache.set {V : Type} (c : KaggleAPICache V) (key : String)
    (v : V) (now : Int) : KaggleAPICache V :=
  ⟨ainsert key v c._cache, ainsert key now c._timestamps⟩

/-- `KaggleAPICache.clear`: drop every entry from both dicts. -/
def KaggleAPICache.clear {V : Type} (_c : KaggleAPICache V) : KaggleAPICache V :=
  ⟨[], []⟩

/-- `KaggleAPICache.size`: number of entries of the value dict. -/
def KaggleAPICache.size {V : Type} (c : KaggleAPICache V) : Nat :=
  c._cache.length

/-- One observable cache call, for replaying histories against a fresh
cache (claim C10). -/
inductive CacheOp (V : Type) : Type where
| get (k : String) (ttl now : Int)
| set (k : String) (v : V) (now : Int)
| clear

/-- Apply one call to the cache, keeping only the state. -/
def applyOp {V : Type} (c : KaggleAPICache V) : CacheOp V → KaggleAPICache V
| .get k ttl now => (c.get k ttl now).2
| .set k v now => c.set k v now
| .clear => c.clear

/-- Replay a call history against a freshly constructed cache. -/
def runOps {V : Type} (ops : List (CacheOp V)) : KaggleAPICache V :=
  ops.foldl applyOp KaggleAPICache.empty

/-- Build a `PyList` from a Lean list. -/
def PyList.ofList : List PyVal → PyList
| [] => .nil
| x :: t => .cons x (PyList.ofList t)

/-- A Python list literal. -/
def pyList (xs : List PyVal) : PyVal := .listV (PyList.ofList xs)

/-- Build a `PyDict` from string-keyed pairs (every response dictionary
the facade builds has string keys). -/
def PyDict.ofPairs : List (String × PyVal) → PyDict
| [] => .dnil
| (k, v) :: t => .dcons (.strV k) v (PyDict.ofPairs t)

/-- A Python dict literal with string keys, in source order. -/
def sdict (kvs : List (String × PyVal)) : PyVal := .dictV (PyDict.ofPairs kvs)

/-- Whether a response dictionary has the given string key. -/
def PyDict.hasStrKey : PyDict → String → Bool
| .dnil, _ => false
| .dcons (.strV s) _ t, k => s = k || PyDict.hasStrKey t k
| .dcons _ _ t, k => PyDict.hasStrKey t k

/-- Whether a response value is a dictionary with the given key. -/
def hasStrKey : PyVal → String → Bool
| .dictV d, k => PyDict.hasStrKey d k
| _, _ => false

/-- First value stored under the given string key. -/
def PyDict.getStrKey : PyDict → String → Option PyVal
| .dnil, _ => none
| .dcons (.strV s) v t, k => if s = k then some v else PyDict.getStrKey t k
| .dcons _ _ t, k => PyDict.getStrKey t k

/-- Value under a string key of a response dictionary. -/
def getStrKey : PyVal → String → Option PyVal
| .dictV d, k => PyDict.getStrKey d k
| _, _ => none

/-- Whether a response dictionary carries `"status"` equal to `s`. -/
def statusIs (r : PyVal) (s : String) : Bool :=
  match getStrKey r "status" with
  | some (.strV t) => t = s
  | _ => false

/- ------------------------------------------------------------------
Facade operations (server.py). Each operation is embedded as a pure
function of its request parameters and of the outcome of every fallible
external step it performs: `initRes` stands for
`initialize_kaggle_api()` and each client call is an `Except String`
carrying either the records returned or the text of the exception
raised. All operations catch every exception in one `try` block, so a
failure at any step yields the operation's error dictionary.
------------------------------------------------------------------ -/

/-- A competition record as `list_competitions` reads it: the fields it
accesses directly, plus the `getattr(..., None)` fields as options. -/
structure CompetitionRecord : Type where
  id : PyVal
  title : PyVal
  url : PyVal
  description : PyVal
  reward : PyVal
  deadline : PyVal
  category : Option PyVal
  maxTeamSize : Option PyVal
  evaluationMetric : Option PyVal
  totalTeams : Option PyVal
  userHasEntered : Option PyVal

/-- The per-competition dictionary built inside `list_competitions`. -/
def comp_data (comp : CompetitionRecord) : PyVal :=
  sdict
    [("id", safe_serialize comp.id),
     ("title", safe_serialize comp.title),
     ("url", safe_serialize comp.url),
     ("description", safe_serialize comp.description),
     ("category", safe_serialize (comp.category.getD .noneV)),
     ("reward", safe_serialize comp.reward),
     ("deadline", safe_serialize comp.deadline),
     ("max_team_size", safe_serialize (comp.maxTeamSize.getD .noneV)),
     ("evaluation_metric", safe_serialize (comp.evaluationMetric.getD .noneV)),
     ("total_teams", safe_serialize (comp.totalTeams.getD .noneV)),
     ("user_has_entered", safe_serialize (comp.userHasEntered.getD .noneV))]

/-- `list_competitions` (server.py lines 81-140). The filter arguments
are accepted and ignored, exactly as in the source, which calls
`api.competitions_list()` without them. No cache and no validator is
consulted; on any failure the raw exception text is returned under
`"error"` next to an empty `"competitions"` list. -/
def list_competitions (_search _category _sort_by : String)
    (page page_size : Int) (initRes : Except String Unit)
    (clientRes : Except String (List CompetitionRecord)) : PyVal :=
  match initRes with
  | .error e => sdict [("error", .strV e), ("competitions", pyList [])]
  | .ok _ =>
    match clientRes with
    | .error e => sdict [("error", .strV e), ("competitions", pyList [])]
    | .ok comps =>
      sdict
        [("competitions", pyList (comps.map comp_data)),
         ("total_count", .intV comps.length),
         ("page", .intV page),
         ("page_size", .intV page_size)]

/-- `download_competition_files` (server.py lines 207-266). `mkdirRes`
stands for `Path(download_path).mkdir(...)`, `downloadRes` for the
client download call taken (single file or whole competition), and
`dirListing` for the file names found in `download_path/competition_id`
(`none` when the directory does not exist). The download path never
touches the cache. -/
def download_competition_files (competition_id download_path : String)
    (file_name : Option String) (_force _quiet : Bool)
    (initRes mkdirRes downloadRes : Except String Unit)
    (dirListing : Option (List String)) : PyVal :=
  match initRes with
  | .error e => sdict [("error", .strV e), ("status", .strV "failed")]
  | .ok _ =>
    match mkdirRes with
    | .error e => sdict [("error", .strV e), ("status", .strV "failed")]
    | .ok _ =>
      match downloadRes with
      | .error e => sdict [("error", .strV e), ("status", .strV "failed")]
      | .ok _ =>
        let downloaded_files : List String :=
          match file_name with
          | some f => [f]
          | none => dirListing.getD []
        sdict
          [("status", .strV "success"),
           ("competition_id", .strV competition_id),
           ("download_path", .strV download_path),
           ("downloaded_files", pyList (downloaded_files.map .strV)),
           ("total_files", .intV downloaded_files.length)]

/-- The request parameters of `search_datasets`. -/
structure SearchRequest : Type where
  search : String
  sort_by : String
  size : String
  file_type : String
  license_name : String
  tag_ids : String
  user : String
  page : Int
  page_size : Int

/-- A dataset record as `search_datasets` reads it: every field is read
with `getattr(..., None)`. -/
structure DatasetRecord : Type where
  ref : Option PyVal
  title : Option PyVal
  size : Option PyVal
  lastUpdated : Option PyVal
  downloadCount : Option PyVal
  voteCount : Option PyVal
  usabilityRating : Option PyVal
  licenseName : Option PyVal
  tags : Option PyVal

/-- The `search_params` dictionary `search_datasets` assembles and
None-filters. The source computes it and then never passes it to the
client (`api.dataset_list()` is called without arguments). -/
def search_params (req : SearchRequest) : List (String × PyVal) :=
  ([("search", if req.search = "" then none else some (.strV req.search)),
    ("sort_by", some (.strV req.sort_by)),
    ("size", if req.size = "all" then none else some (.strV req.size)),
    ("file_type", if req.file_type = "all" then none else some (.strV req.file_type)),
    ("license_name", if req.license_name = "all" then none else some (.strV req.license_name)),
    ("tag_ids", if req.tag_ids = "" then none else some (.strV req.tag_ids)),
    ("user", if req.user = "" then none else some (.strV req.user)),
    ("page", some (.intV req.page)),
    ("page_size", some (.intV req.page_size))]
    : List (String × Option PyVal)).filterMap
    (fun p => p.2.map (fun v => (p.1, v)))

/-- The per-dataset dictionary built inside `search_datasets`. -/
def dataset_data (d : DatasetRecord) : PyVal :=
  sdict
    [("ref", safe_serialize (d.ref.getD .noneV)),
     ("title", safe_serialize (d.title.getD .noneV)),
     ("size", safe_serialize (d.size.getD .noneV)),
     ("last_updated", safe_serialize (d.lastUpdated.getD .noneV)),
     ("download_count", safe_serialize (d.downloadCount.getD .noneV)),
     ("vote_count", safe_serialize (d.voteCount.getD .noneV)),
     ("usability_rating", safe_serialize (d.usabilityRating.getD .noneV)),
     ("license_name", safe_serialize (d.licenseName.getD .noneV)),
     ("tags", safe_serialize (d.tags.getD (pyList []))),
     ("url", .strV ("https://www.kaggle.com/datasets/"
                      ++ pyStr (safe_serialize (d.ref.getD (.strV "")))))]

/-- `search_datasets` (server.py lines 269-351): assembles (and then
ignores) `search_params`, calls `api.dataset_list()` with no arguments,
and serializes each record. No validator and no cache is consulted; on
failure the raw exception text is returned. -/
def search_datasets (req : SearchRequest) (initRes : Except String Unit)
    (clientRes : Except String (List DatasetRecord)) : PyVal :=
  match initRes with
  | .error e => sdict [("error", .strV e), ("datasets", pyList [])]
  | .ok _ =>
    let _params := search_params req
    match clientRes with
    | .error e => sdict [("error", .strV e), ("datasets", pyList [])]
    | .ok ds =>
      sdict
        [("datasets", pyList (ds.map dataset_data)),
         ("total_count", .intV ds.length),
         ("page", .intV req.page),
         ("page_size", .intV req.page_size)]

/-- Observable server-process state: the number of dataset/competition
client list calls performed so far and the module-level `api_cache`
instance from utils.py (which no facade operation ever touches). -/
structure ServerState : Type where
  calls : Nat
  api_cache : KaggleAPICache PyVal

/-- `search_datasets` together with its effect on the process state:
`api.dataset_list()` runs exactly once whenever initialization
succeeded — whether it succeeds or raises — and `api_cache` is never
read or written. -/
def search_datasets_run (req : SearchRequest) (initRes : Except String Unit)
    (clientRes : Except String (List DatasetRecord)) (s : ServerState) :
    PyVal × ServerState :=
  match initRes with
  | .error _ => (search_datasets req initRes clientRes, s)
  | .ok _ =>
    (search_datasets req initRes clientRes,
     { s with calls := s.calls + 1 })

/-- The dataset record `get_dataset_details` reads from
`api.dataset_view` (direct attribute access; `lastUpdated` is a
datetime or `None`, stored here as its `isoformat()` string). -/
structure DatasetDetail : Type where
  ref : PyVal
  title : PyVal
  description : PyVal
  size : PyVal
  lastUpdated : Option String
  downloadCount : PyVal
  voteCount : PyVal
  usabilityRating : PyVal
  licenseName : PyVal
  tags : Option PyVal

/-- A file record from `api.dataset_list_files`. -/
structure FileRecord : Type where
  name : PyVal
  size : PyVal
  creationDate : Option String

/-- The per-file dictionary built inside `get_dataset_details`. -/
def file_data (f : FileRecord) : PyVal :=
  sdict
    [("name", f.name),
     ("size", f.size),
     ("creation_date", match f.creationDate with
                       | some iso => .strV iso
                       | none => .noneV)]

/-- The success dictionary of `get_dataset_details` (raw attribute
values: this operation does not call `safe_serialize`). -/
def dataset_detail_result (ds : DatasetDetail) (files : List FileRecord) : PyVal :=
  sdict
    [("ref", ds.ref),
     ("title", ds.title),
     ("description", ds.description),
     ("size", ds.size),
     ("last_updated", match ds.lastUpdated with
                      | some iso => .strV iso
                      | none => .noneV),
     ("download_count", ds.downloadCount),
     ("vote_count", ds.voteCount),
     ("usability_rating", ds.usabilityRating),
     ("license_name", ds.licenseName),
     ("tags", ds.tags.getD (pyList [])),
     ("url", .strV ("https://www.kaggle.com/datasets/" ++ pyStr ds.ref)),
     ("files", pyList (files.map file_data))]

/-- `get_dataset_details` (server.py lines 354-414) with its effect on
the process state. After initialization it checks only that the
reference contains the separator (not `validate_dataset_ref`); when the
check fails it returns an error dictionary without invoking
`dataset_view`/`dataset_list_files`; otherwise both client calls run
and count. -/
def get_dataset_details_run (dataset_ref : String)
    (initRes : Except String Unit) (viewRes : Except String DatasetDetail)
    (filesRes : Except String (List FileRecord)) (s : ServerState) :
    PyVal × ServerState :=
  match initRes with
  | .error e => (sdict [("error", .strV e)], s)
  | .ok _ =>
    if strContains dataset_ref "/" = false then
      (sdict [("error",
               .strV "Invalid dataset reference format. Use username/dataset-name")],
       s)
    else
      match viewRes with
      | .error e => (sdict [("error", .strV e)], { s with calls := s.calls + 1 })
      | .ok ds =>
        match filesRes with
        | .error e => (sdict [("error", .strV e)], { s with calls := s.calls + 2 })
        | .ok files =>
          (dataset_detail_result ds files, { s with calls := s.calls + 2 })

/- ------------------------------------------------------------------
Helper lemmas.
------------------------------------------------------------------ -/

/-- A split never produces an empty list of pieces. -/
theorem splitAux_length_pos (sep : Char) :
    ∀ (cs acc : List Char), 1 ≤ (splitCharsAux sep cs acc).length := by
  intro cs
  induction cs with
  | nil => intro acc; simp [splitCharsAux]
  | cons c t ih =>
    intro acc
    by_cases h : c = sep
    · simp [splitCharsAux, h]
    · simpa [splitCharsAux, h] using ih (c :: acc)

/-- A split at a separator that occurs produces at least two pieces. -/
theorem splitAux_length_ge_two (sep : Char) :
    ∀ (cs acc : List Char), sep ∈ cs → 2 ≤ (splitCharsAux sep cs acc).length := by
  intro cs
  induction cs with
  | nil => intro acc h; simp at h
  | cons c t ih =>
    intro acc h
    by_cases hc : c = sep
    · have := splitAux_length_pos sep t []
      simp [splitCharsAux, hc]
      omega
    · have ht : sep ∈ t := by
        rcases List.mem_cons.mp h with h1 | h1
        · exact absurd h1.symm hc
        · exact h1
      simpa [splitCharsAux, hc] using ih (c :: acc) ht

/-- A one-character needle that occurs as an infix is a member. -/
theorem mem_of_hasInfix_single (c : Char) :
    ∀ l : List Char, listHasInfix [c] l = true → c ∈ l := by
  intro l
  induction l with
  | nil => intro h; simp [listHasInfix, List.isEmpty] at h
  | cons b bs ih =>
    intro h
    rw [listHasInfix] at h
    rcases Bool.or_eq_true_iff.mp h with h1 | h1
    · rw [listIsPrefixC] at h1
      have : c = b := by
        rcases Bool.and_eq_true_iff.mp h1 with ⟨h2, _⟩
        exact of_decide_eq_true h2
      exact this ▸ List.mem_cons_self c bs
    · exact List.mem_cons_of_mem b (ih h1)

/-- A reference containing the separator splits into at least two parts. -/
theorem pySplitSlash_length_ge_two (s : String) :
    strContains s "/" = true → 2 ≤ (pySplitSlash s).length := by
  intro h
  have hm : ('/' : Char) ∈ s.data := mem_of_hasInfix_single '/' s.data h
  have := splitAux_length_ge_two '/' s.data [] hm
  simpa [pySplitSlash] using this

/-- Looking up a key just stored finds the stored value. -/
theorem alookup_ainsert_self {α : Type} (k : String) (v : α) :
    ∀ l : List (String × α), alookup k (ainsert k v l) = some v := by
  intro l
  induction l with
  | nil => simp [ainsert, alookup]
  | cons p t ih =>
    by_cases h : k = p.1
    · simp [ainsert, alookup, h]
    · simp [ainsert, alookup, h, ih]

/-- A key that is absent from the key column looks up to nothing. -/
theorem alookup_eq_none_of_not_mem {α : Type} (k : String) :
    ∀ l : List (String × α), k ∉ l.map Prod.fst → alookup k l = none := by
  intro l
  induction l with
  | nil => intro _; rfl
  | cons p t ih =>
    intro h
    have h1 : k ≠ p.1 := fun hk => h (by simp [hk])
    have h2 : k ∉ t.map Prod.fst := fun hk => h (by simp [hk])
    simp [alookup, h1, ih h2]

/-- Deleting a present key shortens the dict by exactly one entry. -/
theorem aerase_length {α : Type} (k : String) :
    ∀ (l : List (String × α)) (v : α),
      alookup k l = some v → (aerase k l).length + 1 = l.length := by
  intro l
  induction l with
  | nil => intro v h; simp [alookup] at h
  | cons p t ih =>
    intro v h
    by_cases hk : k = p.1
    · simp [aerase, hk]
    · rw [alookup, if_neg hk] at h
      simp [aerase, hk, ih v h]

/-- With no duplicate keys, deleting a key removes every trace of it. -/
theorem alookup_aerase_self {α : Type} (k : String) :
    ∀ l : List (String × α), (l.map Prod.fst).Nodup →
      alookup k (aerase k l) = none := by
  intro l
  induction l with
  | nil => intro _; rfl
  | cons p t ih =>
    intro hnd
    rw [List.map_cons] at hnd
    rcases List.nodup_cons.mp hnd with ⟨hni, hnt⟩
    by_cases hk : k = p.1
    · rw [aerase, if_pos hk]
      exact alookup_eq_none_of_not_mem k t (hk ▸ hni)
    · rw [aerase, if_neg hk, alookup, if_neg hk]
      exact ih hnt

/-- Stores with the same key column keep the same key column under
`ainsert` (the inserted values may differ). -/
theorem ainsert_keys_congr {α β : Type} (k : String) (v : α) (w : β) :
    ∀ (l₁ : List (String × α)) (l₂ : List (String × β)),
      l₁.map Prod.fst = l₂.map Prod.fst →
      (ainsert k v l₁).map Prod.fst = (ainsert k w l₂).map Prod.fst := by
  intro l₁
  induction l₁ with
  | nil =>
    intro l₂ h
    cases l₂ with
    | nil => simp [ainsert]
    | cons q t₂ => simp at h
  | cons p t₁ ih =>
    intro l₂ h
    cases l₂ with
    | nil => simp at h
    | cons q t₂ =>
      simp only [List.map_cons, List.cons.injEq] at h
      obtain ⟨hh, ht⟩ := h
      by_cases hk : k = p.1
      · simp [ainsert, hk, ← hh, ht]
      · have hk₂ : ¬ k = q.1 := by rw [← hh]; exact hk
        simp [ainsert, hk, hk₂, hh, ih t₂ ht]

/-- Stores with the same key column keep the same key column under
`aerase`. -/
theorem aerase_keys_congr {α β : Type} (k : String) :
    ∀ (l₁ : List (String × α)) (l₂ : List (String × β)),
      l₁.map Prod.fst = l₂.map Prod.fst →
      (aerase k l₁).map Prod.fst = (aerase k l₂).map Prod.fst := by
  intro l₁
  induction l₁ with
  | nil =>
    intro l₂ h
    cases l₂ with
    | nil => simp [aerase]
    | cons q t₂ => simp at h
  | cons p t₁ ih =>
    intro l₂ h
    cases l₂ with
    | nil => simp at h
    | cons q t₂ =>
      simp only [List.map_cons, List.cons.injEq] at h
      obtain ⟨hh, ht⟩ := h
      by_cases hk : k = p.1
      · simpa [aerase, hk, ← hh] using ht
      · have hk₂ : ¬ k = q.1 := by rw [← hh]; exact hk
        simp [aerase, hk, hk₂, hh, ih t₂ ht]

/-- Stores with the same key column agree on which keys look up to
something. -/
theorem alookup_isSome_congr {α β : Type} (k : String) :
    ∀ (l₁ : List (String × α)) (l₂ : List (String × β)),
      l₁.map Prod.fst = l₂.map Prod.fst →
      (alookup k l₁).isSome = (alookup k l₂).isSome := by
  intro l₁
  induction l₁ with
  | nil =>
    intro l₂ h
    cases l₂ with
    | nil => rfl
    | cons q t₂ => simp at h
  | cons p t₁ ih =>
    intro l₂ h
    cases l₂ with
    | nil => simp at h
    | cons q t₂ =>
      simp only [List.map_cons, List.cons.injEq] at h
      obtain ⟨hh, ht⟩ := h
      by_cases hk : k = p.1
      · have hk₂ : k = q.1 := hh ▸ hk
        simp [alookup, hk, hk₂, hh]
      · have hk₂ : ¬ k = q.1 := by rw [← hh]; exact hk
        simp [alookup, hk, hk₂, ih t₂ ht]

/-- The alignment invariant of the two cache dicts: identical key
columns. -/
def cacheInv {V : Type} (c : KaggleAPICache V) : Prop :=
  c._cache.map Prod.fst = c._timestamps.map Prod.fst

/-- Every single cache call preserves the alignment invariant. -/
theorem cacheInv_applyOp {V : Type} (c : KaggleAPICache V) (op : CacheOp V) :
    cacheInv c → cacheInv (applyOp c op) := by
  intro hinv
  cases op with
  | set k v now =>
    exact ainsert_keys_congr k v now c._cache c._timestamps hinv
  | clear => rfl
  | get k ttl now =>
    show cacheInv (c.get k ttl now).2
    unfold KaggleAPICache.get
    cases hc : alookup k c._cache with
    | none => exact hinv
    | some v =>
      cases ht : alookup k c._timestamps with
      | none => exact hinv
      | some stored =>
        by_cases hexp : now - stored > ttl
        · simpa [hexp] using aerase_keys_congr k c._cache c._timestamps hinv
        · simpa [hexp] using hinv

/-- The invariant holds after any prefix of calls from a fresh cache. -/
theorem cacheInv_foldl {V : Type} :
    ∀ (ops : List (CacheOp V)) (c : KaggleAPICache V),
      cacheInv c → cacheInv (ops.foldl applyOp c) := by
  intro ops
  induction ops with
  | nil => intro c h; exact h
  | cons op t ih =>
    intro c h
    exact ih (applyOp c op) (cacheInv_applyOp c op h)

/- Idempotence of the serializer on values whose `name` attributes are
strings (mutual structural induction with its list and dict workers). -/
mutual
theorem ssIdemAux : ∀ v : PyVal, goodNames v = true →
    safe_serialize (safe_serialize v) = safe_serialize v
| .noneV, _ => rfl
| .boolV _, _ => rfl
| .intV _, _ => rfl
| .floatV _, _ => rfl
| .strV _, _ => rfl
| .listV xs, h => by
    have hx : goodNamesList xs = true := by simpa [goodNames] using h
    simp [safe_serialize, ssIdemListAux xs hx]
| .tupleV xs, h => by
    have hx : goodNamesList xs = true := by simpa [goodNames] using h
    simp [safe_serialize, ssIdemListAux xs hx]
| .dictV kvs, h => by
    have hx : goodNamesDict kvs = true := by simpa [goodNames] using h
    simp [safe_serialize, ssIdemDictAux kvs hx]
| .objV (some _) _ _ _, _ => rfl
| .objV none (.osome n) val rep, h => by
    cases n with
    | noneV => rfl
    | boolV b => rfl
    | intV k => rfl
    | floatV f => rfl
    | strV s => rfl
    | listV xs => exact absurd h (by unfold goodNames; simp)
    | tupleV xs => exact absurd h (by unfold goodNames; simp)
    | dictV kvs => exact absurd h (by unfold goodNames; simp)
    | objV iso₂ nm₂ val₂ rep₂ => exact absurd h (by unfold goodNames; simp)
| .objV none .onone (.osome w) _, h => by
    have hw : goodNames w = true := by simpa [goodNames] using h
    simpa [safe_serialize] using ssIdemAux w hw
| .objV none .onone .onone _, _ => rfl
theorem ssIdemListAux : ∀ xs : PyList, goodNamesList xs = true →
    ssList (ssList xs) = ssList xs
| .nil, _ => rfl
| .cons x t, h => by
    have h1 : goodNames x = true := by
      have := (Bool.and_eq_true_iff.mp (by simpa [goodNamesList] using h)).1
      exact this
    have h2 : goodNamesList t = true := by
      have := (Bool.and_eq_true_iff.mp (by simpa [goodNamesList] using h)).2
      exact this
    simp [ssList, ssIdemAux x h1, ssIdemListAux t h2]
theorem ssIdemDictAux : ∀ kvs : PyDict, goodNamesDict kvs = true →
    ssDict (ssDict kvs) = ssDict kvs
| .dnil, _ => rfl
| .dcons k v t, h => by
    have h1 : goodNames v = true := by
      have := (Bool.and_eq_true_iff.mp (by simpa [goodNamesDict] using h)).1
      exact this
    have h2 : goodNamesDict t = true := by
      have := (Bool.and_eq_true_iff.mp (by simpa [goodNamesDict] using h)).2
      exact this
    simp [ssDict, ssIdemAux v h1, ssIdemDictAux t h2]
end

/- The serializer output contains no platform object, provided `name`
attributes are strings and dict keys are platform-free. -/
mutual
theorem ssNoPlatformAux : ∀ v : PyVal, goodNames v = true → keysClean v = true →
    noPlatform (safe_serialize v) = true
| .noneV, _, _ => rfl
| .boolV _, _, _ => rfl
| .intV _, _, _ => rfl
| .floatV _, _, _ => rfl
| .strV _, _, _ => rfl
| .listV xs, h, h₂ => by
    have hx : goodNamesList xs = true := by simpa [goodNames] using h
    have hx₂ : keysCleanList xs = true := by simpa [keysClean] using h₂
    simpa [safe_serialize, noPlatform] using ssNoPlatformListAux xs hx hx₂
| .tupleV xs, h, h₂ => by
    have hx : goodNamesList xs = true := by simpa [goodNames] using h
    have hx₂ : keysCleanList xs = true := by simpa [keysClean] using h₂
    simpa [safe_serialize, noPlatform] using ssNoPlatformListAux xs hx hx₂
| .dictV kvs, h, h₂ => by
    have hx : goodNamesDict kvs = true := by simpa [goodNames] using h
    have hx₂ : keysCleanDict kvs = true := by simpa [keysClean] using h₂
    simpa [safe_serialize, noPlatform] using ssNoPlatformDictAux kvs hx hx₂
| .objV (some _) _ _ _, _, _ => rfl
| .objV none (.osome n) val rep, h, _ => by
    cases n with
    | strV s => rfl
    | noneV => rfl
    | boolV b => rfl
    | intV k => rfl
    | floatV f => rfl
    | listV xs => exact absurd h (by unfold goodNames; simp)
    | tupleV xs => exact absurd h (by unfold goodNames; simp)
    | dictV kvs => exact absurd h (by unfold goodNames; simp)
    | objV iso₂ nm₂ val₂ rep₂ => exact absurd h (by unfold goodNames; simp)
| .objV none .onone (.osome w) _, h, h₂ => by
    have hw : goodNames w = true := by simpa [goodNames] using h
    have hw₂ : keysClean w = true := by simpa [keysClean] using h₂
    simpa [safe_serialize] using ssNoPlatformAux w hw hw₂
| .objV none .onone .onone _, _, _ => rfl
theorem ssNoPlatformListAux : ∀ xs : PyList,
    goodNamesList xs = true → keysCleanList xs = true →
    noPlatformList (ssList xs) = true
| .nil, _, _ => rfl
| .cons x t, h, h₂ => by
    have h1 : goodNames x = true :=
      (Bool.and_eq_true_iff.mp (by simpa [goodNamesList] using h)).1
    have hT : goodNamesList t = true :=
      (Bool.and_eq_true_iff.mp (by simpa [goodNamesList] using h)).2
    have h1₂ : keysClean x = true :=
      (Bool.and_eq_true_iff.mp (by simpa [keysCleanList] using h₂)).1
    have hT₂ : keysCleanList t = true :=
      (Bool.and_eq_true_iff.mp (by simpa [keysCleanList] using h₂)).2
    simp [ssList, noPlatformList, ssNoPlatformAux x h1 h1₂,
          ssNoPlatformListAux t hT hT₂]
theorem ssNoPlatformDictAux : ∀ kvs : PyDict,
    goodNamesDict kvs = true → keysCleanDict kvs = true →
    noPlatformDict (ssDict kvs) = true
| .dnil, _, _ => rfl
| .dcons k v t, h, h₂ => by
    have h1 : goodNames v = true :=
      (Bool.and_eq_true_iff.mp (by simpa [goodNamesDict] using h)).1
    have hT : goodNamesDict t = true :=
      (Bool.and_eq_true_iff.mp (by simpa [goodNamesDict] using h)).2
    have hsplit : (noPlatform k = true ∧ keysClean v = true) ∧ keysCleanDict t = true := by
      simpa [keysCleanDict] using h₂
    have hk : noPlatform k = true := hsplit.1.1
    have hv : keysClean v = true := hsplit.1.2
    have ht₂ : keysCleanDict t = true := hsplit.2
    simp [ssDict, noPlatformDict, hk, ssNoPlatformAux v h1 hv,
          ssNoPlatformDictAux t hT ht₂]
end

/-- C4 (amended): for every error text the classifier returns the kind
of the first matching rule of the spec's priority-ordered table
together with that kind's fixed message template from the code; the
code's templates coincide with the spec's table for the permission,
rate_limit, timeout and unknown kinds (the authentication and
not_found wordings differ, see the counterexample); in particular a
text containing both "401" and "rate limit" classifies as
authentication. -/
theorem classifier_first_match_priority :
    (∀ e : String,
       classifyError e = (specClassifyKind e, codeKindMessage (specClassifyKind e) e))
    ∧ (∀ e : String,
       codeKindMessage .permission e = specKindMessage .permission e
       ∧ codeKindMessage .rate_limit e = specKindMessage .rate_limit e
       ∧ codeKindMessage .timeout e = specKindMessage .timeout e
       ∧ codeKindMessage .unknown e = specKindMessage .unknown e)
    ∧ classifyError "401 — rate limit exceeded"
        = (.authentication,
           "Authentication failed. Please check your Kaggle API credentials.") := by
  refine ⟨?_, ?_, ?_⟩
  · intro e
    unfold classifyError specClassifyKind specRules
    by_cases h1 : (strContains e "401" || strContains e "Unauthorized") = true
    · simp [h1, List.find?, codeKindMessage]
    · by_cases h2 : (strContains e "403" || strContains e "Forbidden") = true
      · simp [h1, h2, List.find?, codeKindMessage]
      · by_cases h3 : (strContains e "404" || strContains e "Not Found") = true
        · simp [h1, h2, h3, List.find?, codeKindMessage]
        · by_cases h4 : (strContains e "429" || strContains (pyLower e) "rate limit") = true
          · simp [h1, h2, h3, h4, List.find?, codeKindMessage]
          · by_cases h5 : strContains (pyLower e) "timeout" = true
            · simp [h1, h2, h3, h4, h5, List.find?, codeKindMessage]
            · simp [h1, h2, h3, h4, h5, List.find?, codeKindMessage]
  · intro e
    exact ⟨rfl, rfl, rfl, rfl⟩
  · rfl

/-- C4 counterexample: the classifier's kinds follow the spec's
priority table, but its messages are not those of the table — for the
text "401" the code says "Kaggle API credentials" where the spec's
authentication rule says "API credentials", and for "404" the code
says "the competition/dataset ID" where the spec's not_found rule says
"the identifier" — refuting "returns the kind and message of the first
matching rule". -/
theorem classifier_message_differs_cex :
    classifyError "401"
      = (.authentication,
         "Authentication failed. Please check your Kaggle API credentials.")
    ∧ specClassifyKind "401" = .authentication
    ∧ specKindMessage .authentication "401"
        = "Authentication failed. Please check your API credentials."
    ∧ (classifyError "401").2 ≠ specKindMessage (specClassifyKind "401") "401"
    ∧ classifyError "404"
        = (.not_found, "Resource not found. Please check the competition/dataset ID.")
    ∧ specClassifyKind "404" = .not_found
    ∧ specKindMessage .not_found "404" = "Resource not found. Please check the identifier."
    ∧ (classifyError "404").2 ≠ specKindMessage (specClassifyKind "404") "404" :=
  ⟨by decide, by decide, rfl, by decide, by decide, by decide, rfl, by decide⟩

/-- C8: the reference validator returns invalid (with a message)
exactly when the input is empty, has no separator, splits into more
than two parts (more than one separator), or has an empty side of the
single separator; every other input yields valid with `none` in the
message slot — the parts themselves are not part of the return value. -/
theorem ref_validator_characterization :
    (∀ s : String,
       ((validate_dataset_ref s).1 = true ↔
          ¬(s = "" ∨ strContains s "/" = false ∨ 2 < (pySplitSlash s).length ∨
            ((pySplitSlash s).length = 2 ∧
              ((pySplitSlash s).getD 0 "" = "" ∨ (pySplitSlash s).getD 1 "" = ""))))
       ∧ ((validate_dataset_ref s).2 = none ↔ (validate_dataset_ref s).1 = true))
    ∧ pySplitSlash "alice/titanic" = ["alice", "titanic"] := by
  constructor
  · intro s
    unfold validate_dataset_ref
    by_cases h1 : s = ""
    · simp [h1]
    · by_cases h2 : strContains s "/" = false
      · simp [h1, h2]
      · have h2t : strContains s "/" = true := by
          cases hb : strContains s "/" with
          | false => exact absurd hb h2
          | true => rfl
        have hge : 2 ≤ (pySplitSlash s).length := pySplitSlash_length_ge_two s h2t
        by_cases h3 : (pySplitSlash s).length = 2
        · cases hp : pySplitSlash s with
          | nil => rw [hp] at h3; simp at h3
          | cons a t =>
            cases t with
            | nil => rw [hp] at h3; simp at h3
            | cons b t₂ =>
              cases t₂ with
              | cons c t₃ => rw [hp] at h3; simp at h3
              | nil =>
                by_cases h4 : a = "" ∨ b = ""
                · simp [h1, h2t, hp, h4]
                · simp [h1, h2t, hp, h4]
        · have hlt : 2 < (pySplitSlash s).length :=
            lt_of_le_of_ne hge (Ne.symm h3)
          simp [h1, h2t, h3, hlt]
  · rfl

/-- C8 counterexample: two valid references with different parts give
the identical result `(true, none)` — the validator's return value
carries no extracted parts, contradicting "returns valid together with
the two extracted parts". -/
theorem ref_validator_returns_no_parts_cex :
    validate_dataset_ref "alice/titanic" = (true, none)
    ∧ validate_dataset_ref "bob/mnist" = (true, none) := by
  exact ⟨by decide, by decide⟩

/-- C5: (1) a `set` immediately followed by a `get` with any `ttl ≥ 0`
returns the stored value; (2) a `get` whose entry is strictly older
than `ttl` (on a duplicate-free store, as every Python dict is) returns
absent, removes the entry, and shrinks `size()` by one; (3) a `get`
whose entry age equals `ttl` still returns the value. -/
theorem cache_ttl_read_semantics :
    (∀ (V : Type) (c : KaggleAPICache V) (k : String) (v : V) (now ttl : Int),
       0 ≤ ttl → ((c.set k v now).get k ttl now).1 = some v)
    ∧ (∀ (V : Type) (c : KaggleAPICache V) (k : String) (v : V) (stored now ttl : Int),
         (c._cache.map Prod.fst).Nodup →
         alookup k c._cache = some v →
         alookup k c._timestamps = some stored →
         ttl < now - stored →
         ((c.get k ttl now).1 = none
           ∧ alookup k (c.get k ttl now).2._cache = none
           ∧ (c.get k ttl now).2.size + 1 = c.size))
    ∧ (∀ (V : Type) (c : KaggleAPICache V) (k : String) (v : V) (stored now ttl : Int),
         alookup k c._cache = some v →
         alookup k c._timestamps = some stored →
         now - stored = ttl →
         (c.get k ttl now).1 = some v) := by
  refine ⟨?_, ?_, ?_⟩
  · intro V c k v now ttl h
    unfold KaggleAPICache.get KaggleAPICache.set
    simp only [alookup_ainsert_self]
    simp [show ¬ ttl < 0 from by omega]
  · intro V c k v stored now ttl hnd hc ht hexp
    have hcond : now - stored > ttl := hexp
    have hred : KaggleAPICache.get c k ttl now =
        (none, ⟨aerase k c._cache, aerase k c._timestamps⟩) := by
      unfold KaggleAPICache.get
      rw [hc, ht]
      simp [hcond]
    rw [hred]
    refine ⟨rfl, ?_, ?_⟩
    · exact alookup_aerase_self k c._cache hnd
    · show (aerase k c._cache).length + 1 = c._cache.length
      exact aerase_length k c._cache v hc
  · intro V c k v stored now ttl hc ht heq
    have hcond : ¬ now - stored > ttl := by omega
    have hred : KaggleAPICache.get c k ttl now = (some v, c) := by
      unfold KaggleAPICache.get
      rw [hc, ht]
      simp [hcond]
    rw [hred]

/-- C5 witness: concrete run of all three parts on a one-entry cache. -/
theorem cache_ttl_read_semantics_witness :
    ((0 : Int) ≤ 5
      ∧ (((KaggleAPICache.empty).set "k" (7 : Nat) 0).get "k" 5 0).1 = some 7)
    ∧ (((((KaggleAPICache.empty).set "k" (7 : Nat) 0).get "k" 5 10).1 = none)
        ∧ alookup "k" ((((KaggleAPICache.empty).set "k" (7 : Nat) 0).get "k" 5 10).2)._cache = none
        ∧ ((((KaggleAPICache.empty).set "k" (7 : Nat) 0).get "k" 5 10).2).size + 1
            = (((KaggleAPICache.empty : KaggleAPICache Nat).set "k" (7 : Nat) 0)).size)
    ∧ ((((KaggleAPICache.empty).set "k" (7 : Nat) 0).get "k" 10 10).1 = some 7) := by
  refine ⟨⟨by decide, cache_ttl_read_semantics.1 Nat KaggleAPICache.empty "k" 7 0 5 (by decide)⟩, ?_, ?_⟩
  · exact cache_ttl_read_semantics.2.1 Nat ((KaggleAPICache.empty).set "k" 7 0) "k" 7 0 10 5
      (by decide) (by decide) (by decide) (by decide)
  · exact cache_ttl_read_semantics.2.2 Nat ((KaggleAPICache.empty).set "k" 7 0) "k" 7 0 10 10
      (by decide) (by decide) (by decide)

/-- C10: after any finite call history against a fresh cache, the value
dict and the timestamp dict hold exactly the same keys (in the same
order), and `size()` equals the number of timestamped entries. -/
theorem cache_dicts_key_aligned :
    ∀ (V : Type) (ops : List (CacheOp V)),
      ((runOps ops)._cache.map Prod.fst = (runOps ops)._timestamps.map Prod.fst)
      ∧ (runOps ops).size = (runOps ops)._timestamps.length := by
  intro V ops
  have hinv : cacheInv (runOps ops) :=
    cacheInv_foldl ops KaggleAPICache.empty rfl
  refine ⟨hinv, ?_⟩
  show (runOps ops)._cache.length = (runOps ops)._timestamps.length
  have := congrArg List.length hinv
  simpa using this

/-- C1 (amended): the dataset-search operation never consults the TTL
Cache — every issue of the request (after successful initialization)
invokes the Platform Client dataset-list call exactly once, and the
module-level `api_cache` is left untouched, so two identical requests
cause two invocations regardless of how much time separates them. -/
theorem search_datasets_bypasses_cache :
    ∀ (req : SearchRequest) (cl : Except String (List DatasetRecord))
      (s : ServerState),
      (search_datasets_run req (.ok ()) cl
          (search_datasets_run req (.ok ()) cl s).2).2.calls = s.calls + 2
      ∧ (search_datasets_run req (.ok ()) cl
           (search_datasets_run req (.ok ()) cl s).2).2.api_cache = s.api_cache
      ∧ (search_datasets_run req (.ok ()) cl
           (search_datasets_run req (.ok ()) cl s).2).1
          = (search_datasets_run req (.ok ()) cl s).1 := by
  intro req cl s
  exact ⟨rfl, rfl, rfl⟩

/-- C1 counterexample: the same dataset-search request issued twice in
immediate succession (hence within any positive TTL window) against a
fresh server state performs two client invocations, not one, and the
cache stays empty — nothing is ever served from it. -/
theorem search_datasets_double_invocation_cex :
    (search_datasets_run ⟨"titanic", "hottest", "all", "all", "all", "", "", 1, 20⟩
        (.ok ()) (.ok [])
        (search_datasets_run ⟨"titanic", "hottest", "all", "all", "all", "", "", 1, 20⟩
          (.ok ()) (.ok []) ⟨0, KaggleAPICache.empty⟩).2).2.calls = 2
    ∧ (search_datasets_run ⟨"titanic", "hottest", "all", "all", "all", "", "", 1, 20⟩
        (.ok ()) (.ok [])
        (search_datasets_run ⟨"titanic", "hottest", "all", "all", "all", "", "", 1, 20⟩
          (.ok ()) (.ok []) ⟨0, KaggleAPICache.empty⟩).2).2.api_cache.size = 0 :=
  ⟨rfl, rfl⟩

/-- Exactly one of two booleans holds. -/
def exactlyOneOf (a b : Bool) : Prop :=
  (a = true ∧ b = false) ∨ (a = false ∧ b = true)

/-- C2 (amended): the cited facade operations are total — for every
request and client behaviour, including a raised exception at any
step, they return a response dictionary that is exactly one of a
success envelope (the payload keys for `list_competitions`, a
`"status": "success"` marker for `download_competition_files`) or an
error envelope carrying the error message under `"error"` — never
both, never neither. -/
theorem facade_response_envelope_exclusive :
    (∀ (search category sort_by : String) (page page_size : Int)
       (ini : Except String Unit) (cl : Except String (List CompetitionRecord)),
       exactlyOneOf
         (hasStrKey (list_competitions search category sort_by page page_size ini cl)
           "total_count")
         (hasStrKey (list_competitions search category sort_by page page_size ini cl)
           "error"))
    ∧ (∀ (cid dpath : String) (fn : Option String) (force quiet : Bool)
         (ini mk dl : Except String Unit) (ls : Option (List String)),
         exactlyOneOf
           (statusIs (download_competition_files cid dpath fn force quiet ini mk dl ls)
             "success")
           (hasStrKey (download_competition_files cid dpath fn force quiet ini mk dl ls)
             "error")) := by
  constructor
  · intro search category sort_by page page_size ini cl
    cases ini with
    | error e => exact Or.inr ⟨rfl, rfl⟩
    | ok u =>
      cases cl with
      | error e => exact Or.inr ⟨rfl, rfl⟩
      | ok comps => exact Or.inl ⟨rfl, rfl⟩
  · intro cid dpath fn force quiet ini mk dl ls
    cases ini with
    | error e => exact Or.inr ⟨rfl, rfl⟩
    | ok u =>
      cases mk with
      | error e => exact Or.inr ⟨rfl, rfl⟩
      | ok u₂ =>
        cases dl with
        | error e => exact Or.inr ⟨rfl, rfl⟩
        | ok u₃ => exact Or.inl ⟨rfl, rfl⟩

/-- C2 counterexample: on an upstream failure the error envelope
carries only the raw message — there is no `error_type` (error kind)
key, refuting "error envelope carrying an error kind and message". -/
theorem error_envelope_without_kind_cex :
    hasStrKey (list_competitions "" "all" "deadline" 1 20 (.ok ()) (.error "boom"))
      "error" = true
    ∧ hasStrKey (list_competitions "" "all" "deadline" 1 20 (.ok ()) (.error "boom"))
        "error_type" = false :=
  ⟨rfl, rfl⟩

/-- C3 (amended): on any upstream failure the cited operations return
an error envelope carrying the raw exception text verbatim; the Error
Classifier is not consulted, so no kind and no templated message
appear. -/
theorem upstream_failure_returns_raw_text :
    ∀ (search category sort_by : String) (page page_size : Int) (e : String)
      (req : SearchRequest),
      getStrKey (list_competitions search category sort_by page page_size
          (.ok ()) (.error e)) "error" = some (.strV e)
      ∧ hasStrKey (list_competitions search category sort_by page page_size
          (.ok ()) (.error e)) "error_type" = false
      ∧ getStrKey (search_datasets req (.ok ()) (.error e)) "error" = some (.strV e)
      ∧ hasStrKey (search_datasets req (.ok ()) (.error e)) "error_type" = false := by
  intro search category sort_by page page_size e req
  exact ⟨rfl, rfl, rfl, rfl⟩

/-- C3 counterexample: for the failure text "401 Unauthorized" the
classifier would yield the authentication kind with its templated
message, but the operation's envelope carries the raw upstream text
with no kind — even though the kind is not `unknown`. -/
theorem unclassified_401_error_cex :
    getStrKey (list_competitions "" "all" "deadline" 1 20 (.ok ())
        (.error "401 Unauthorized")) "error" = some (.strV "401 Unauthorized")
    ∧ hasStrKey (list_competitions "" "all" "deadline" 1 20 (.ok ())
        (.error "401 Unauthorized")) "error_type" = false
    ∧ classifyError "401 Unauthorized"
        = (.authentication,
           "Authentication failed. Please check your Kaggle API credentials.")
    ∧ "401 Unauthorized"
        ≠ "Authentication failed. Please check your Kaggle API credentials." :=
  ⟨rfl, rfl, by decide, by decide⟩

/-- C9 (amended): the facade does not validate pagination — a
dataset-search request with `page < 1`, `page_size < 1` or
`page_size > 100` still invokes the Platform Client and returns a
success envelope echoing the invalid page; only the dataset-detail
operation short-circuits, returning an error envelope without invoking
the dataset client calls, and only when the reference lacks the
separator. -/
theorem operations_skip_validation :
    (∀ (req : SearchRequest) (ds : List DatasetRecord) (s : ServerState),
       req.page < 1 ∨ req.page_size < 1 ∨ 100 < req.page_size →
         (search_datasets_run req (.ok ()) (.ok ds) s).2.calls = s.calls + 1
         ∧ hasStrKey (search_datasets_run req (.ok ()) (.ok ds) s).1 "error" = false
         ∧ getStrKey (search_datasets_run req (.ok ()) (.ok ds) s).1 "page"
             = some (.intV req.page))
    ∧ (∀ (ref : String) (viewRes : Except String DatasetDetail)
         (filesRes : Except String (List FileRecord)) (s : ServerState),
         strContains ref "/" = false →
           (get_dataset_details_run ref (.ok ()) viewRes filesRes s).2.calls = s.calls
           ∧ hasStrKey (get_dataset_details_run ref (.ok ()) viewRes filesRes s).1
               "error" = true) := by
  constructor
  · intro req ds s _
    exact ⟨rfl, rfl, rfl⟩
  · intro ref viewRes filesRes s h
    unfold get_dataset_details_run
    rw [if_pos h]
    exact ⟨rfl, rfl⟩

/-- C9 witness: a page-0 search request and a separator-free reference. -/
theorem operations_skip_validation_witness :
    ((0 : Int) < 1
      ∧ (search_datasets_run ⟨"", "hottest", "all", "all", "all", "", "", 0, 20⟩
          (.ok ()) (.ok []) ⟨0, KaggleAPICache.empty⟩).2.calls = 1
      ∧ hasStrKey (search_datasets_run ⟨"", "hottest", "all", "all", "all", "", "", 0, 20⟩
          (.ok ()) (.ok []) ⟨0, KaggleAPICache.empty⟩).1 "error" = false)
    ∧ (strContains "titanic" "/" = false
      ∧ (get_dataset_details_run "titanic" (.ok ()) (.error "n/a") (.error "n/a")
          ⟨0, KaggleAPICache.empty⟩).2.calls = 0
      ∧ hasStrKey (get_dataset_details_run "titanic" (.ok ()) (.error "n/a") (.error "n/a")
          ⟨0, KaggleAPICache.empty⟩).1 "error" = true) := by
  constructor
  · refine ⟨by decide, ?_, ?_⟩
    · exact (operations_skip_validation.1
        ⟨"", "hottest", "all", "all", "all", "", "", 0, 20⟩ [] ⟨0, KaggleAPICache.empty⟩
        (Or.inl (by decide))).1
    · exact (operations_skip_validation.1
        ⟨"", "hottest", "all", "all", "all", "", "", 0, 20⟩ [] ⟨0, KaggleAPICache.empty⟩
        (Or.inl (by decide))).2.1
  · refine ⟨rfl, ?_, ?_⟩
    · exact (operations_skip_validation.2 "titanic" (.error "n/a") (.error "n/a")
        ⟨0, KaggleAPICache.empty⟩ rfl).1
    · exact (operations_skip_validation.2 "titanic" (.error "n/a") (.error "n/a")
        ⟨0, KaggleAPICache.empty⟩ rfl).2

/-- C9 counterexample: `validate_pagination_params` itself flags
`page = 0` as invalid, yet the dataset-search operation performs the
client call (one invocation from a fresh state) and returns a success
envelope rather than a validation error envelope. -/
theorem invalid_page_reaches_client_cex :
    validate_pagination_params 0 20 100
      = (false, some "Page number must be 1 or greater")
    ∧ (search_datasets_run ⟨"", "hottest", "all", "all", "all", "", "", 0, 20⟩
        (.ok ()) (.ok []) ⟨0, KaggleAPICache.empty⟩).2.calls = 1
    ∧ hasStrKey (search_datasets_run ⟨"", "hottest", "all", "all", "all", "", "", 0, 20⟩
        (.ok ()) (.ok []) ⟨0, KaggleAPICache.empty⟩).1 "error" = false := by
  refine ⟨by decide, rfl, rfl⟩
